import Mathlib

/-!
Verification of `transfer.py`, a CLI utility that validates a source path and a
destination IPv4 address and then invokes `rsync` as a subprocess.

The embedding models:
* `validate_ip` — the regex
  `^(?:(?:25[0-5]|2[0-4]\d|[01]?\d\d?)\.){3}(?:25[0-5]|2[0-4]\d|[01]?\d\d?)$`
  checked with Python `re.match`.  Two host-language facts matter and are
  modelled explicitly: `re.match` anchors only at the start (the `^` is
  redundant), and an un-flagged `$` matches both at the end of the string and
  just before a newline that is the string's last character, so the regex also
  accepts a well-formed address followed by one trailing newline.  The model
  restricts characters to the ASCII repertoire: Python's `\d` additionally
  matches non-ASCII Unicode decimal digits, which the model (and the spec)
  treat as out of scope.
* `validate_local_path` — `os.path.exists`, modelled by an abstract filesystem
  predicate `fs : String → Bool` passed as a parameter.
* `prompt_for_input` — the unbounded interactive retry loop.  Standard input is
  modelled as a `List String` of lines; an exhausted list corresponds to EOF,
  where Python's `input()` raises `EOFError` which nothing in the program
  catches, so the model returns `none` (abnormal termination).
* `get_arguments` / `main` — argument validation and the rsync invocation.
  The subprocess is modelled by `run : List String → RunResult`; printed
  diagnostics are modelled as a trace of `Msg` values.
-/

/-- ASCII decimal digit, the model of the regex class `\d`
(restricted to ASCII; Python's `\d` also matches other Unicode digits). -/
def isDigitC (c : Char) : Bool := 48 ≤ c.toNat && c.toNat ≤ 57

/-- Character range test, the model of a regex class such as `[0-5]`. -/
def charBetween (lo hi c : Char) : Bool := lo.toNat ≤ c.toNat && c.toNat ≤ hi.toNat

/-- Numeric value of an ASCII digit. -/
def digitVal (c : Char) : Nat := c.toNat - 48

/-- Value denoted by a list of decimal digits (most significant first). -/
def groupVal (cs : List Char) : Nat := cs.foldl (fun acc c => 10 * acc + digitVal c) 0

/-- The octet alternation of the source regex,
`25[0-5]|2[0-4]\d|[01]?\d\d?`, as a predicate on the character list lying
between two dots (or an anchor and a dot).  Branches map one-to-one onto the
regex alternatives: a three-character match is `25[0-5]`, `2[0-4]\d` or
`[01]\d\d`; a two-character match is `[01]\d` or `\d\d`; a one-character
match is `\d`. -/
def matchOctet : List Char → Bool
  | [a] => isDigitC a
  | [a, b] => ((a = '0' || a = '1') && isDigitC b) || (isDigitC a && isDigitC b)
  | [a, b, c] =>
      (a = '2' && b = '5' && charBetween '0' '5' c)
      || (a = '2' && charBetween '0' '4' b && isDigitC c)
      || ((a = '0' || a = '1') && isDigitC b && isDigitC c)
  | _ => false

/-- The quad structure `(X\.){3}X` of the source regex: the string splits at
the literal dots into exactly four components, each matching `X`.  Splitting
is faithful because no octet alternative matches a dot, so the regex
decomposition of a matching string is exactly the dot-split. -/
def quadWith (octet : List Char → Bool) (cs : List Char) : Bool :=
  match cs.splitOn '.' with
  | [a, b, c, d] => octet a && octet b && octet c && octet d
  | _ => false

/-- `validate_ip` from `transfer.py` (lines 28–36): `re.match` of the anchored
quad pattern.  Python's `$` (no `re.MULTILINE`) matches at the end of the
string or just before a final newline, so the regex accepts the quad language
and the quad language followed by one `'\n'`. -/
def validate_ip (ip : String) : Bool :=
  quadWith matchOctet ip.data
    || (ip.data.getLast? = some '\n' && quadWith matchOctet ip.data.dropLast)

/-- `validate_local_path` from `transfer.py` (lines 38–42): `os.path.exists`,
with the filesystem abstracted as the predicate `fs`. -/
def validate_local_path (fs : String → Bool) (path : String) : Bool := fs path

/-- Spec-side description of one component, taken from the spec's words:
a decimal group whose value lies in 0–255 ("four dot-separated decimal
groups, each in the inclusive range 0–255").  No bound on the number of
digits is stated. -/
def specGroup (cs : List Char) : Bool :=
  !cs.isEmpty && cs.all isDigitC && groupVal cs ≤ 255

/-- Spec-side IPv4 predicate, from the spec's words: exactly four
dot-separated decimal groups, each in 0–255, and no other characters. -/
def specIPv4 (s : String) : Bool := quadWith specGroup s.data

/-- Spec-side component with the digit-count bound the pattern actually
enforces: at most three digits. -/
def specGroup3 (cs : List Char) : Bool :=
  !cs.isEmpty && cs.length ≤ 3 && cs.all isDigitC && groupVal cs ≤ 255

/-- Spec-side IPv4 predicate amended with the three-digit bound. -/
def specIPv4three (s : String) : Bool := quadWith specGroup3 s.data

-- ### Characterization of the octet language

lemma char_eq_iff_toNat {a b : Char} : a = b ↔ a.toNat = b.toNat := by
  constructor
  · intro h; rw [h]
  · intro h; exact Char.ext (UInt32.ext h)

lemma groupVal_one (a : Char) : groupVal [a] = digitVal a := by
  simp [groupVal, List.foldl]

lemma groupVal_two (a b : Char) : groupVal [a, b] = 10 * digitVal a + digitVal b := by
  simp [groupVal, List.foldl]

lemma groupVal_three (a b c : Char) :
    groupVal [a, b, c] = 100 * digitVal a + 10 * digitVal b + digitVal c := by
  simp [groupVal, List.foldl]; ring

/-- The octet alternation of the regex recognises exactly the nonempty digit
strings of at most three characters whose value is at most 255. -/
lemma matchOctet_eq_specGroup3 (cs : List Char) : matchOctet cs = specGroup3 cs := by
  have h0 : ('0' : Char).toNat = 48 := rfl
  have h1 : ('1' : Char).toNat = 49 := rfl
  have h2 : ('2' : Char).toNat = 50 := rfl
  have h4 : ('4' : Char).toNat = 52 := rfl
  have h5 : ('5' : Char).toNat = 53 := rfl
  match cs with
  | [] => rfl
  | [a] =>
      rw [Bool.eq_iff_iff]
      simp only [matchOctet, specGroup3, groupVal_one, isDigitC, digitVal,
        charBetween, List.isEmpty_cons, List.all_cons, List.all_nil,
        List.length_cons, List.length_nil, Bool.not_false, Bool.true_and,
        Bool.and_true, Bool.or_eq_true, Bool.and_eq_true, decide_eq_true_eq,
        char_eq_iff_toNat, h0, h1, h2, h4, h5]
      omega
  | [a, b] =>
      rw [Bool.eq_iff_iff]
      simp only [matchOctet, specGroup3, groupVal_two, isDigitC, digitVal,
        charBetween, List.isEmpty_cons, List.all_cons, List.all_nil,
        List.length_cons, List.length_nil, Bool.not_false, Bool.true_and,
        Bool.and_true, Bool.or_eq_true, Bool.and_eq_true, decide_eq_true_eq,
        char_eq_iff_toNat, h0, h1, h2, h4, h5]
      omega
  | [a, b, c] =>
      rw [Bool.eq_iff_iff]
      simp only [matchOctet, specGroup3, groupVal_three, isDigitC, digitVal,
        charBetween, List.isEmpty_cons, List.all_cons, List.all_nil,
        List.length_cons, List.length_nil, Bool.not_false, Bool.true_and,
        Bool.and_true, Bool.or_eq_true, Bool.and_eq_true, decide_eq_true_eq,
        char_eq_iff_toNat, h0, h1, h2, h4, h5]
      omega
  | a :: b :: c :: d :: rest =>
      rw [Bool.eq_iff_iff]
      simp [matchOctet, specGroup3]

lemma quadWith_octet_eq (cs : List Char) :
    quadWith matchOctet cs = quadWith specGroup3 cs := by
  rw [funext matchOctet_eq_specGroup3]

/-- Does the string end with a newline character? -/
def endsWithNL (s : String) : Bool := s.data.getLast? = some '\n'

/-- The string with its final character removed. -/
def dropLastStr (s : String) : String := ⟨s.data.dropLast⟩

/-- The regex accepts exactly the clean quads (four dot-separated groups of at
most three digits, each valuing at most 255) together with those same quads
followed by one trailing newline. -/
lemma validate_ip_eq (s : String) :
    validate_ip s
      = (specIPv4three s || (endsWithNL s && specIPv4three (dropLastStr s))) := by
  unfold validate_ip specIPv4three endsWithNL dropLastStr
  rw [quadWith_octet_eq, quadWith_octet_eq]

-- ### Interaction model: stdin lines, printed diagnostics, subprocess

/-- Python `str.strip()` restricted to the ASCII whitespace characters it
removes: space, tab, newline, carriage return, vertical tab, form feed. -/
def isPySpace (c : Char) : Bool :=
  c = ' ' || c = '\t' || c = '\n' || c = '\r' || c = '\x0b' || c = '\x0c'

/-- Remove leading and trailing whitespace, the model of `str.strip()`. -/
def pyStrip (s : String) : String :=
  ⟨(s.data.dropWhile isPySpace).rdropWhile isPySpace⟩

/-- One line printed by the program.  Constructors carry exactly the data
interpolated into the corresponding f-string of the source. -/
inductive Msg where
  /-- `Error: Provided source '...' does not exist.` (line 71) -/
  | sourceNotExist (v : String)
  /-- `Error: Provided host IP '...' is invalid.` (line 76) -/
  | hostInvalid (v : String)
  /-- `Error: ... Please try again.` (line 53) -/
  | tryAgain (err : String)
  /-- `Starting file/folder transfer using rsync...` (line 94) -/
  | startTransfer
  /-- `Source: ...` (line 95) -/
  | showSource (v : String)
  /-- `Destination: ...` (line 96) -/
  | showDest (v : String)
  /-- `Error: Transfer failed with error code ...` (line 101) -/
  | transferFailed (code : Nat)
  /-- `Error: rsync command not found. ...` (line 104) -/
  | rsyncNotFound
  /-- `Transfer completed successfully!` (line 107) -/
  | transferSuccess
deriving DecidableEq

/-- `prompt_for_input` from `transfer.py` (lines 44–53).  Standard input is a
list of lines; each `input()` consumes one and the result is stripped before
validation.  An exhausted list is EOF: `input()` raises `EOFError`, which no
caller catches, modelled by `none` (the messages printed before the crash are
still collected). -/
def prompt_for_input (prompt_message : String) (validation_func : String → Bool)
    (error_message : String) : List String → List Msg × Option (String × List String)
  | [] => ([], none)
  | line :: rest =>
      let value := pyStrip line
      if validation_func value then ([], some (value, rest))
      else
        let next := prompt_for_input prompt_message validation_func error_message rest
        (Msg.tryAgain error_message :: next.1, next.2)

/-- Python truthiness of `args.source` (`Optional[str]`): `None` and the empty
string are falsy. -/
def truthyStr : Option String → Bool
  | none => false
  | some s => !(s = "")

/-- The argparse result: optional positional `source`, and `user`, `host`,
`remote_path` options (lines 59–66).  Their source defaults are
`"cbwinslow"`, `"192.168.6.69"`, `"/home/cbwinslow/"`. -/
structure Args where
  source : Option String
  user : String
  host : String
  remote_path : String
deriving DecidableEq

/-- The defaults argparse applies when an option is not supplied. -/
def defaultArgs (source : Option String) : Args :=
  ⟨source, "cbwinslow", "192.168.6.69", "/home/cbwinslow/"⟩

/-- The validated tuple the spec calls a TransferRequest. -/
structure TransferRequest where
  source : String
  user : String
  host : String
  remote_path : String
deriving DecidableEq

/-- The source-validation block of `get_arguments` (lines 68–72):
`if not args.source or not validate_local_path(args.source)` — `not
args.source` is Python truthiness and the `or` short-circuits — prints the
named diagnostic only when `args.source` is truthy, then prompts. -/
def source_step (fs : String → Bool) (source : Option String) (stdin : List String) :
    List Msg × Option (String × List String) :=
  if !truthyStr source || !fs (source.getD "") then
    let pre : List Msg :=
      match source with
      | some s => if s = "" then [] else [Msg.sourceNotExist s]
      | none => []
    let pr := prompt_for_input "Enter a valid local source path: " fs
        "Path does not exist" stdin
    (pre ++ pr.1, pr.2)
  else
    ([], some (source.getD "", stdin))

/-- The host-validation block of `get_arguments` (lines 74–77):
`if not validate_ip(args.host)` prints the named diagnostic, then prompts. -/
def host_step (host : String) (stdin : List String) :
    List Msg × Option (String × List String) :=
  if !validate_ip host then
    let pr := prompt_for_input "Enter a valid IP address for the remote host: "
        validate_ip "IP address format is invalid" stdin
    (Msg.hostInvalid host :: pr.1, pr.2)
  else
    ([], some (host, stdin))

/-- `get_arguments` from `transfer.py` (lines 55–79), after argparse: the
source block, then the host block.  Returns the printed messages and, unless
a prompt hit EOF, the validated request plus the unconsumed stdin lines. -/
def get_arguments (fs : String → Bool) (args : Args) (stdin : List String) :
    List Msg × Option (TransferRequest × List String) :=
  match source_step fs args.source stdin with
  | (msgs1, none) => (msgs1, none)
  | (msgs1, some (src, stdin1)) =>
      match host_step args.host stdin1 with
      | (msgs2, none) => (msgs1 ++ msgs2, none)
      | (msgs2, some (h, stdin2)) =>
          (msgs1 ++ msgs2, some (⟨src, args.user, h, args.remote_path⟩, stdin2))

/-- Result of `subprocess.run(cmd, check=True)`: the child exited with a
status code, or the executable could not be found (`FileNotFoundError`). -/
inductive RunResult where
  | exited (code : Nat)
  | notFound
deriving DecidableEq

/-- The rsync invocation built in `main` (lines 89–92): fixed flags, then the
source, then `user@host:remote_path`. -/
def rsync_command (source user host remote_path : String) : List String :=
  ["rsync", "-avh", "--progress", "--partial", "--inplace",
   source, user ++ "@" ++ host ++ ":" ++ remote_path]

namespace Transfer

/-- `main` from `transfer.py` (lines 81–107).  `run` models the external
world's response to executing a command.  The result is the printed trace and
the process exit status: `some 0` for the fall-through success path, `some n`
for `sys.exit(e.returncode)` on `CalledProcessError`, `some 1` for
`sys.exit(1)` on `FileNotFoundError`, and `none` when an uncaught `EOFError`
escaped from a prompt (abnormal termination, no rsync invocation). -/
def main (fs : String → Bool) (run : List String → RunResult)
    (args : Args) (stdin : List String) : List Msg × Option Nat :=
  match get_arguments fs args stdin with
  | (msgs, none) => (msgs, none)
  | (msgs, some (req, _)) =>
      let cmd := rsync_command req.source req.user req.host req.remote_path
      let pre := msgs ++ [Msg.startTransfer, Msg.showSource req.source,
        Msg.showDest (req.user ++ "@" ++ req.host ++ ":" ++ req.remote_path)]
      match run cmd with
      | RunResult.exited 0 => (pre ++ [Msg.transferSuccess], some 0)
      | RunResult.exited (n + 1) => (pre ++ [Msg.transferFailed (n + 1)], some (n + 1))
      | RunResult.notFound => (pre ++ [Msg.rsyncNotFound], some 1)

end Transfer

-- ### Helper lemmas about stripping and the prompt loop

lemma length_dropWhile_le_self (p : Char → Bool) (tl : List Char) :
    (tl.dropWhile p).length ≤ tl.length := by
  induction tl with
  | nil => simp
  | cons a l ih =>
      rw [List.dropWhile_cons]
      by_cases hp : p a = true
      · simp only [if_pos hp, List.length_cons]; omega
      · simp [hp]

lemma dropWhile_rdropWhile (p : Char → Bool) (l : List Char) (h : l.dropWhile p = l) :
    (l.rdropWhile p).dropWhile p = l.rdropWhile p := by
  obtain ⟨t, ht⟩ := List.rdropWhile_prefix p l
  match hr : l.rdropWhile p with
  | [] => simp
  | b :: u =>
      rw [hr] at ht
      cases l with
      | nil => simp at ht
      | cons a tl =>
          rw [List.cons_append] at ht
          injection ht with hb htl
          subst hb
          rw [List.dropWhile_cons] at h
          by_cases hp : p b = true
          · rw [if_pos hp] at h
            have hlen := congrArg List.length h
            have hle := length_dropWhile_le_self p tl
            simp at hlen
            omega
          · simp [List.dropWhile_cons, hp]

lemma pyStrip_idem (s : String) : pyStrip (pyStrip s) = pyStrip s := by
  show (⟨_⟩ : String) = ⟨_⟩
  congr 1
  show (((s.data.dropWhile isPySpace).rdropWhile isPySpace).dropWhile
      isPySpace).rdropWhile isPySpace = (s.data.dropWhile isPySpace).rdropWhile isPySpace
  rw [dropWhile_rdropWhile isPySpace _ (List.dropWhile_idempotent isPySpace s.data),
    List.rdropWhile_idempotent]

/-- Whenever the prompt loop returns a value, that value passed the validation
function and is the strip of some input line. -/
lemma prompt_for_input_sound (pm e : String) (v : String → Bool) :
    ∀ stdin val rest, (prompt_for_input pm v e stdin).2 = some (val, rest) →
      v val = true ∧ ∃ line, val = pyStrip line := by
  intro stdin
  induction stdin with
  | nil => intro val rest h; simp [prompt_for_input] at h
  | cons line tl ih =>
      intro val rest h
      simp only [prompt_for_input] at h
      by_cases hv : v (pyStrip line) = true
      · simp only [hv, if_true, Option.some.injEq, Prod.mk.injEq] at h
        exact ⟨h.1 ▸ hv, line, h.1.symm⟩
      · simp only [hv] at h
        exact ih val rest h

/-- The only messages the prompt loop prints are its retry errors. -/
lemma prompt_for_input_msgs (pm e : String) (v : String → Bool) :
    ∀ stdin m, m ∈ (prompt_for_input pm v e stdin).1 → m = Msg.tryAgain e := by
  intro stdin
  induction stdin with
  | nil => intro m h; simp [prompt_for_input] at h
  | cons line tl ih =>
      intro m h
      simp only [prompt_for_input] at h
      by_cases hv : v (pyStrip line) = true
      · simp [hv] at h
      · simp only [hv, if_false, Bool.false_eq_true, List.mem_cons] at h
        rcases h with h | h
        · exact h
        · exact ih m h

/-- If every available line strips to an invalid value, the loop exhausts
stdin and the uncaught `EOFError` aborts the run. -/
lemma prompt_for_input_exhausts (pm e : String) (v : String → Bool) :
    ∀ stdin, (∀ line ∈ stdin, v (pyStrip line) = false) →
      (prompt_for_input pm v e stdin).2 = none := by
  intro stdin
  induction stdin with
  | nil => intro _; rfl
  | cons line tl ih =>
      intro hall
      have h1 : v (pyStrip line) = false := hall line (List.mem_cons_self line tl)
      simp only [prompt_for_input, h1, Bool.false_eq_true, if_false]
      exact ih fun l hl => hall l (List.mem_cons_of_mem line hl)

/-- A finite run of invalid lines followed by a valid one makes the loop
print one retry error per invalid line and return the stripped valid value,
leaving the rest of stdin unread. -/
lemma prompt_for_input_succeeds (pm e : String) (v : String → Bool) :
    ∀ bad good rest, (∀ line ∈ bad, v (pyStrip line) = false) →
      v (pyStrip good) = true →
      prompt_for_input pm v e (bad ++ good :: rest)
        = (bad.map (fun _ => Msg.tryAgain e), some (pyStrip good, rest)) := by
  intro bad
  induction bad with
  | nil =>
      intro good rest _ hgood
      simp [prompt_for_input, hgood]
  | cons b tl ih =>
      intro good rest hall hgood
      have hb : v (pyStrip b) = false := hall b (List.mem_cons_self b tl)
      simp only [List.cons_append, prompt_for_input, hb, Bool.false_eq_true, if_false,
        List.map_cons, List.append_eq]
      rw [ih good rest (fun l hl => hall l (List.mem_cons_of_mem b hl)) hgood]

/-- Whatever the source block returns satisfies the path-existence check. -/
lemma source_step_sound (fs : String → Bool) (source : Option String)
    (stdin : List String) (src : String) (rest : List String)
    (h : (source_step fs source stdin).2 = some (src, rest)) : fs src = true := by
  unfold source_step at h
  by_cases hc : (!truthyStr source || !fs (source.getD "")) = true
  · rw [if_pos hc] at h
    exact (prompt_for_input_sound _ _ _ stdin src rest h).1
  · rw [if_neg hc] at h
    simp only [Option.some.injEq, Prod.mk.injEq] at h
    simp only [Bool.or_eq_true, Bool.not_eq_true', not_or, Bool.not_eq_false] at hc
    exact h.1 ▸ hc.2

/-- Whatever the host block returns satisfies the IPv4 format check. -/
lemma host_step_sound (host : String) (stdin : List String) (h' : String)
    (rest : List String) (h : (host_step host stdin).2 = some (h', rest)) :
    validate_ip h' = true := by
  unfold host_step at h
  by_cases hc : (!validate_ip host) = true
  · rw [if_pos hc] at h
    exact (prompt_for_input_sound _ _ _ stdin h' rest h).1
  · rw [if_neg hc] at h
    simp only [Option.some.injEq, Prod.mk.injEq] at h
    simp only [Bool.not_eq_true, Bool.not_eq_false'] at hc
    exact h.1 ▸ hc

/-- Every message of the host block names the supplied host or is a retry
error. -/
lemma host_step_msgs (host : String) (stdin : List String) (m : Msg)
    (hm : m ∈ (host_step host stdin).1) :
    m = Msg.hostInvalid host ∨ m = Msg.tryAgain "IP address format is invalid" := by
  unfold host_step at hm
  by_cases hc : (!validate_ip host) = true
  · rw [if_pos hc] at hm
    simp only [List.mem_cons] at hm
    rcases hm with h | h
    · exact Or.inl h
    · exact Or.inr (prompt_for_input_msgs _ _ _ stdin m h)
  · rw [if_neg hc] at hm
    simp at hm

/-- When the host fails the format check, the diagnostic naming it is
printed (before any prompting). -/
lemma host_step_emits (host : String) (stdin : List String)
    (h : validate_ip host = false) : Msg.hostInvalid host ∈ (host_step host stdin).1 := by
  unfold host_step
  rw [h]
  simp

/-- The source diagnostic naming a value appears in the source block's output
exactly when that value was the supplied source, was non-empty, and failed
the existence check. -/
lemma source_step_msg_iff (fs : String → Bool) (source : Option String)
    (stdin : List String) (v : String) :
    Msg.sourceNotExist v ∈ (source_step fs source stdin).1
      ↔ (source = some v ∧ v ≠ "" ∧ fs v = false) := by
  unfold source_step
  by_cases hc : (!truthyStr source || !fs (source.getD "")) = true
  · rw [if_pos hc]
    simp only [List.mem_append]
    constructor
    · intro hm
      rcases hm with hm | hm
      · match source with
        | none => simp at hm
        | some s =>
            by_cases hs : s = ""
            · simp [hs] at hm
            · simp only [hs, if_false, List.mem_singleton, Msg.sourceNotExist.injEq] at hm
              subst hm
              refine ⟨rfl, hs, ?_⟩
              simp only [truthyStr, Option.getD_some, Bool.or_eq_true,
                Bool.not_eq_true'] at hc
              rcases hc with hc | hc
              · simp [hs] at hc
              · exact hc
      · have := prompt_for_input_msgs _ _ _ stdin _ hm
        simp at this
    · rintro ⟨hsrc, hne, hfs⟩
      subst hsrc
      left
      simp [hne]
  · rw [if_neg hc]
    simp only [List.not_mem_nil, false_iff, not_and]
    intro hsrc hne
    subst hsrc
    simp only [Bool.or_eq_true, Bool.not_eq_true', not_or, Bool.not_eq_false,
      Option.getD_some] at hc
    simp [hc.2]

/-- Soundness of `get_arguments`: any returned request passed both
validators, and the user and remote path fields are passed through
unchanged. -/
lemma get_arguments_sound (fs : String → Bool) (args : Args) (stdin : List String)
    (req : TransferRequest) (rest : List String)
    (h : (get_arguments fs args stdin).2 = some (req, rest)) :
    fs req.source = true ∧ validate_ip req.host = true
      ∧ req.user = args.user ∧ req.remote_path = args.remote_path := by
  unfold get_arguments at h
  split at h
  · simp at h
  · rename_i msgs1 src stdin1 h1
    split at h
    · simp at h
    · rename_i msgs2 hst stdin2 h2
      simp only [Option.some.injEq, Prod.mk.injEq] at h
      obtain ⟨hreq, _⟩ := h
      subst hreq
      refine ⟨?_, ?_, rfl, rfl⟩
      · exact source_step_sound fs args.source stdin src stdin1 (by rw [h1])
      · exact host_step_sound args.host stdin1 hst stdin2 (by rw [h2])

/-- The "does not exist" diagnostic appears in the program's output exactly
when a non-empty source was supplied and failed the existence check. -/
lemma get_arguments_sourceMsg_iff (fs : String → Bool) (args : Args)
    (stdin : List String) (v : String) :
    Msg.sourceNotExist v ∈ (get_arguments fs args stdin).1
      ↔ (args.source = some v ∧ v ≠ "" ∧ fs v = false) := by
  have hsrc := source_step_msg_iff fs args.source stdin v
  have hnot2 : ∀ stdin1, Msg.sourceNotExist v ∉ (host_step args.host stdin1).1 := by
    intro stdin1 hm
    rcases host_step_msgs args.host stdin1 _ hm with h | h <;> simp at h
  unfold get_arguments
  split
  · rename_i m1 heq
    rw [heq] at hsrc
    exact hsrc
  · rename_i m1 src stdin1 heq
    rw [heq] at hsrc
    have hno := hnot2 stdin1
    split
    · rename_i m2 heq2
      rw [heq2] at hno
      simp only [List.mem_append]
      constructor
      · intro hm
        rcases hm with hm | hm
        · exact hsrc.mp hm
        · exact absurd hm hno
      · intro hx
        exact Or.inl (hsrc.mpr hx)
    · rename_i m2 hst stdin2 heq2
      rw [heq2] at hno
      simp only [List.mem_append]
      constructor
      · intro hm
        rcases hm with hm | hm
        · exact hsrc.mp hm
        · exact absurd hm hno
      · intro hx
        exact Or.inl (hsrc.mpr hx)

/-- On every run that returns, an invalid supplied host is named in a printed
diagnostic. -/
lemma get_arguments_hostMsg (fs : String → Bool) (args : Args) (stdin : List String)
    (req : TransferRequest) (rest : List String)
    (hsome : (get_arguments fs args stdin).2 = some (req, rest))
    (hbad : validate_ip args.host = false) :
    Msg.hostInvalid args.host ∈ (get_arguments fs args stdin).1 := by
  unfold get_arguments at hsome ⊢
  split at hsome
  · simp at hsome
  · rename_i m1 src stdin1 heq
    have hemit := host_step_emits args.host stdin1 hbad
    split
    · rename_i m2 heq2
      rw [heq2] at hemit
      exact List.mem_append_right m1 hemit
    · rename_i m2 hst stdin2 heq2
      rw [heq2] at hemit
      exact List.mem_append_right m1 hemit

/-- A non-empty supplied source failing the existence check is named in a
printed diagnostic. -/
lemma get_arguments_sourceMsg (fs : String → Bool) (args : Args) (stdin : List String)
    (s : String) (hs : args.source = some s) (hne : s ≠ "") (hbad : fs s = false) :
    Msg.sourceNotExist s ∈ (get_arguments fs args stdin).1 :=
  (get_arguments_sourceMsg_iff fs args stdin s).mpr ⟨hs, hne, hbad⟩

/-- Shape of a completed run: once `get_arguments` returns a request, `main`
prints the banner and dispatches on the subprocess result for exactly the
rsync command built from that request. -/
lemma main_eq_of_get_arguments (fs : String → Bool) (run : List String → RunResult)
    (args : Args) (stdin : List String) (msgs : List Msg) (req : TransferRequest)
    (rest : List String) (hga : get_arguments fs args stdin = (msgs, some (req, rest))) :
    Transfer.main fs run args stdin =
      (let pre := msgs ++ [Msg.startTransfer, Msg.showSource req.source,
         Msg.showDest (req.user ++ "@" ++ req.host ++ ":" ++ req.remote_path)]
       match run (rsync_command req.source req.user req.host req.remote_path) with
       | RunResult.exited 0 => (pre ++ [Msg.transferSuccess], some 0)
       | RunResult.exited (n + 1) => (pre ++ [Msg.transferFailed (n + 1)], some (n + 1))
       | RunResult.notFound => (pre ++ [Msg.rsyncNotFound], some 1)) := by
  unfold Transfer.main
  rw [hga]


-- ### Claim theorems

/-- C1 (counterexample): the IPv4 check disagrees with the spec's
value-semantics description on two inputs: it accepts a well-formed quad
followed by a trailing newline (a string containing a non-numeric character),
and it rejects a group of four digits whose numeric value is within 0–255. -/
theorem validate_ip_claim_counterexample :
    (validate_ip "1.2.3.4\n" = true ∧ specIPv4 "1.2.3.4\n" = false)
    ∧ (validate_ip "0.0.0.0255" = false ∧ specIPv4 "0.0.0.0255" = true) := by
  refine ⟨⟨?_, ?_⟩, ?_, ?_⟩ <;> decide

/-- C1 (amended): the IPv4 check returns true exactly for strings of four
dot-separated decimal groups of at most three digits, each valuing 0–255,
and for such strings followed by one trailing newline; it returns false for
every other string. -/
theorem validate_ip_amended_characterization (s : String) :
    validate_ip s
      = (specIPv4three s || (endsWithNL s && specIPv4three (dropLastStr s))) :=
  validate_ip_eq s

/-- C2: every request `get_arguments` returns satisfies both validators:
the source passed the existence check and the host passed the IPv4 format
check, whatever was supplied on the command line and typed interactively. -/
theorem get_arguments_establishes_invariant (fs : String → Bool) (args : Args)
    (stdin : List String) (req : TransferRequest) (rest : List String)
    (h : (get_arguments fs args stdin).2 = some (req, rest)) :
    validate_local_path fs req.source = true ∧ validate_ip req.host = true := by
  have hs := get_arguments_sound fs args stdin req rest h
  exact ⟨hs.1, hs.2.1⟩

/-- C2 (witness): with malformed host `999.1.1.1` on the command line, the
run only completes after a corrected address is read, and the returned
request satisfies both validators. -/
theorem get_arguments_establishes_invariant_witness :
    (get_arguments (fun s => s = "/tmp/testfile")
        ⟨some "/tmp/testfile", "alice", "999.1.1.1", "/backup/"⟩ ["10.0.0.5"]).2
      = some (⟨"/tmp/testfile", "alice", "10.0.0.5", "/backup/"⟩, [])
    ∧ validate_local_path (fun s => s = "/tmp/testfile") "/tmp/testfile" = true
    ∧ validate_ip "10.0.0.5" = true := by
  refine ⟨by decide, ?_⟩
  exact get_arguments_establishes_invariant (fun s => s = "/tmp/testfile")
    ⟨some "/tmp/testfile", "alice", "999.1.1.1", "/backup/"⟩ ["10.0.0.5"]
    ⟨"/tmp/testfile", "alice", "10.0.0.5", "/backup/"⟩ [] (by decide)

/-- C3: the rsync invocation is the fixed flag list
`rsync -avh --progress --partial --inplace` (independent of the request),
followed by the source string unmodified and the destination string built
exactly as `user@host:remote_path`. -/
theorem rsync_command_exact (source user host remote_path : String) :
    rsync_command source user host remote_path
      = ["rsync", "-avh", "--progress", "--partial", "--inplace"]
          ++ [source, user ++ "@" ++ host ++ ":" ++ remote_path]
    ∧ (rsync_command source user host remote_path).take 5
        = (rsync_command "" "" "" "").take 5 :=
  ⟨rfl, rfl⟩

/-- C4: when the child exits with a nonzero status, the program prints the
failure diagnostic carrying that status and exits with exactly that status. -/
theorem nonzero_exit_propagated (fs : String → Bool) (run : List String → RunResult)
    (args : Args) (stdin : List String) (msgs : List Msg) (req : TransferRequest)
    (rest : List String) (n : Nat)
    (hga : get_arguments fs args stdin = (msgs, some (req, rest)))
    (hrun : run (rsync_command req.source req.user req.host req.remote_path)
      = RunResult.exited n)
    (hn : n ≠ 0) :
    (Transfer.main fs run args stdin).2 = some n
    ∧ Msg.transferFailed n ∈ (Transfer.main fs run args stdin).1 := by
  rw [main_eq_of_get_arguments fs run args stdin msgs req rest hga]
  cases n with
  | zero => exact absurd rfl hn
  | succ m =>
      simp only [hrun]
      exact ⟨trivial, by simp⟩

/-- C4 (witness): the propagation holds at statuses 23 and 1 on a concrete
validated run. -/
theorem nonzero_exit_propagated_witness :
    ((Transfer.main (fun s => s = "/tmp/f") (fun _ => RunResult.exited 23)
        (defaultArgs (some "/tmp/f")) []).2 = some 23
      ∧ Msg.transferFailed 23 ∈ (Transfer.main (fun s => s = "/tmp/f")
        (fun _ => RunResult.exited 23) (defaultArgs (some "/tmp/f")) []).1)
    ∧ ((Transfer.main (fun s => s = "/tmp/f") (fun _ => RunResult.exited 1)
        (defaultArgs (some "/tmp/f")) []).2 = some 1
      ∧ Msg.transferFailed 1 ∈ (Transfer.main (fun s => s = "/tmp/f")
        (fun _ => RunResult.exited 1) (defaultArgs (some "/tmp/f")) []).1) :=
  ⟨nonzero_exit_propagated (fun s => s = "/tmp/f") (fun _ => RunResult.exited 23)
      (defaultArgs (some "/tmp/f")) [] []
      ⟨"/tmp/f", "cbwinslow", "192.168.6.69", "/home/cbwinslow/"⟩ [] 23
      (by decide) rfl (by decide),
   nonzero_exit_propagated (fun s => s = "/tmp/f") (fun _ => RunResult.exited 1)
      (defaultArgs (some "/tmp/f")) [] []
      ⟨"/tmp/f", "cbwinslow", "192.168.6.69", "/home/cbwinslow/"⟩ [] 1
      (by decide) rfl (by decide)⟩

/-- C5: when the rsync executable cannot be found, the program prints the
dedicated "tool not found" diagnostic and exits with status 1 (a handled
error path, not an uncaught exception, which the model renders as `none`). -/
theorem rsync_missing_exits_one (fs : String → Bool) (run : List String → RunResult)
    (args : Args) (stdin : List String) (msgs : List Msg) (req : TransferRequest)
    (rest : List String)
    (hga : get_arguments fs args stdin = (msgs, some (req, rest)))
    (hrun : run (rsync_command req.source req.user req.host req.remote_path)
      = RunResult.notFound) :
    (Transfer.main fs run args stdin).2 = some 1
    ∧ Msg.rsyncNotFound ∈ (Transfer.main fs run args stdin).1 := by
  rw [main_eq_of_get_arguments fs run args stdin msgs req rest hga]
  simp only [hrun]
  exact ⟨trivial, by simp⟩

/-- C5 (witness): concrete run with a missing executable. -/
theorem rsync_missing_exits_one_witness :
    (Transfer.main (fun s => s = "/tmp/f") (fun _ => RunResult.notFound)
        (defaultArgs (some "/tmp/f")) []).2 = some 1
    ∧ Msg.rsyncNotFound ∈ (Transfer.main (fun s => s = "/tmp/f")
        (fun _ => RunResult.notFound) (defaultArgs (some "/tmp/f")) []).1 :=
  rsync_missing_exits_one (fun s => s = "/tmp/f") (fun _ => RunResult.notFound)
    (defaultArgs (some "/tmp/f")) [] []
    ⟨"/tmp/f", "cbwinslow", "192.168.6.69", "/home/cbwinslow/"⟩ [] (by decide) rfl

/-- C6: when the child exits with status zero, the program reports success
and exits with status 0. -/
theorem zero_exit_reports_success (fs : String → Bool) (run : List String → RunResult)
    (args : Args) (stdin : List String) (msgs : List Msg) (req : TransferRequest)
    (rest : List String)
    (hga : get_arguments fs args stdin = (msgs, some (req, rest)))
    (hrun : run (rsync_command req.source req.user req.host req.remote_path)
      = RunResult.exited 0) :
    (Transfer.main fs run args stdin).2 = some 0
    ∧ Msg.transferSuccess ∈ (Transfer.main fs run args stdin).1 := by
  rw [main_eq_of_get_arguments fs run args stdin msgs req rest hga]
  simp only [hrun]
  exact ⟨trivial, by simp⟩

/-- C6 (witness): concrete successful run. -/
theorem zero_exit_reports_success_witness :
    (Transfer.main (fun s => s = "/tmp/f") (fun _ => RunResult.exited 0)
        (defaultArgs (some "/tmp/f")) []).2 = some 0
    ∧ Msg.transferSuccess ∈ (Transfer.main (fun s => s = "/tmp/f")
        (fun _ => RunResult.exited 0) (defaultArgs (some "/tmp/f")) []).1 :=
  zero_exit_reports_success (fun s => s = "/tmp/f") (fun _ => RunResult.exited 0)
    (defaultArgs (some "/tmp/f")) [] []
    ⟨"/tmp/f", "cbwinslow", "192.168.6.69", "/home/cbwinslow/"⟩ [] (by decide) rfl

/-- C7 (counterexample): a supplied empty-string source fails the existence
predicate, yet the run completes with no diagnostic at all — the "names the
failing field and its offending value" rule does not hold for the empty
source, because the code tests Python truthiness before printing. -/
theorem validator_diagnostic_counterexample :
    validate_local_path (fun s => s = "ok") "" = false
    ∧ (get_arguments (fun s => s = "ok") ⟨some "", "u", "1.2.3.4", "/p"⟩ ["ok"]).1 = []
    ∧ (get_arguments (fun s => s = "ok") ⟨some "", "u", "1.2.3.4", "/p"⟩ ["ok"]).2
        = some (⟨"ok", "u", "1.2.3.4", "/p"⟩, []) := by
  refine ⟨?_, ?_, ?_⟩ <;> decide

/-- C7 (amended): whenever the prompt loop returns, its result is a
whitespace-stripped string satisfying the supplied validation function; an
invalid non-empty source and an invalid host are each named in a diagnostic
(the empty-string source is re-prompted without a named diagnostic). -/
theorem validator_diagnostics_and_prompt (fs : String → Bool) (args : Args)
    (stdin : List String) :
    (∀ pm e v val rest stdin0,
        (prompt_for_input pm v e stdin0).2 = some (val, rest) →
        v val = true ∧ pyStrip val = val)
    ∧ (∀ s, args.source = some s → s ≠ "" → fs s = false →
        Msg.sourceNotExist s ∈ (get_arguments fs args stdin).1)
    ∧ (∀ req rest, (get_arguments fs args stdin).2 = some (req, rest) →
        validate_ip args.host = false →
        Msg.hostInvalid args.host ∈ (get_arguments fs args stdin).1) := by
  refine ⟨?_, ?_, ?_⟩
  · intro pm e v val rest stdin0 h
    obtain ⟨hv, line, hline⟩ := prompt_for_input_sound pm e v stdin0 val rest h
    subst hline
    exact ⟨hv, pyStrip_idem line⟩
  · intro s hs hne hbad
    exact get_arguments_sourceMsg fs args stdin s hs hne hbad
  · intro req rest hsome hbad
    exact get_arguments_hostMsg fs args stdin req rest hsome hbad

/-- C7 (witness): on a concrete run both diagnostics appear, naming the
failing fields and their offending values. -/
theorem validator_diagnostics_and_prompt_witness :
    Msg.sourceNotExist "bad" ∈ (get_arguments (fun s => s = "/tmp/f")
        ⟨some "bad", "u", "999.1.1.1", "/p"⟩ [" /tmp/f ", "10.0.0.5"]).1
    ∧ Msg.hostInvalid "999.1.1.1" ∈ (get_arguments (fun s => s = "/tmp/f")
        ⟨some "bad", "u", "999.1.1.1", "/p"⟩ [" /tmp/f ", "10.0.0.5"]).1 :=
  ⟨(validator_diagnostics_and_prompt (fun s => s = "/tmp/f")
      ⟨some "bad", "u", "999.1.1.1", "/p"⟩ [" /tmp/f ", "10.0.0.5"]).2.1
      "bad" rfl (by decide) (by decide),
   (validator_diagnostics_and_prompt (fun s => s = "/tmp/f")
      ⟨some "bad", "u", "999.1.1.1", "/p"⟩ [" /tmp/f ", "10.0.0.5"]).2.2
      ⟨"/tmp/f", "u", "10.0.0.5", "/p"⟩ [] (by decide) (by decide)⟩

/-- C8: the retry loop has no retry bound — any finite run of invalid lines
followed by a valid one returns that value (stripped) — and when stdin is
exhausted while a valid value is still needed the loop aborts the run
(`none`, the uncaught `EOFError`), which `main` propagates, rather than
looping forever. -/
theorem prompt_loop_unbounded_and_eof (pm e : String) (v : String → Bool) :
    (∀ stdin, (∀ line ∈ stdin, v (pyStrip line) = false) →
        (prompt_for_input pm v e stdin).2 = none)
    ∧ (∀ bad good rest, (∀ line ∈ bad, v (pyStrip line) = false) →
        v (pyStrip good) = true →
        prompt_for_input pm v e (bad ++ good :: rest)
          = (bad.map (fun _ => Msg.tryAgain e), some (pyStrip good, rest)))
    ∧ (∀ fs run args stdin msgs, get_arguments fs args stdin = (msgs, none) →
        Transfer.main fs run args stdin = (msgs, none)) := by
  refine ⟨prompt_for_input_exhausts pm e v, prompt_for_input_succeeds pm e v, ?_⟩
  intro fs run args stdin msgs hga
  unfold Transfer.main
  rw [hga]

/-- C8 (witness): a run of one invalid line then a valid one returns the
stripped valid value; an all-invalid stdin yields the aborting `none`. -/
theorem prompt_loop_unbounded_and_eof_witness :
    (prompt_for_input "p" validate_ip "e" ["abc"]).2 = none
    ∧ prompt_for_input "p" validate_ip "e" (["999.1.1.1"] ++ " 10.0.0.5 " :: [])
        = (["999.1.1.1"].map (fun _ => Msg.tryAgain "e"),
           some (pyStrip " 10.0.0.5 ", [])) :=
  ⟨(prompt_loop_unbounded_and_eof "p" "e" validate_ip).1 ["abc"] (by decide),
   (prompt_loop_unbounded_and_eof "p" "e" validate_ip).2.1
     ["999.1.1.1"] " 10.0.0.5 " [] (by decide) (by decide)⟩

/-- C9: every string of four dot-separated numerals of at most three digits
each valuing 0–255 — leading zeros included — passes the IPv4 check. -/
theorem validate_ip_accepts_leading_zeros (s : String)
    (h : specIPv4three s = true) : validate_ip s = true := by
  rw [validate_ip_eq, h, Bool.true_or]

/-- C9 (witness): the leading-zero form `001.010.000.255` is accepted. -/
theorem validate_ip_accepts_leading_zeros_witness :
    specIPv4three "001.010.000.255" = true
    ∧ validate_ip "001.010.000.255" = true :=
  ⟨by decide, validate_ip_accepts_leading_zeros "001.010.000.255" (by decide)⟩

/-- C10: the "does not exist" diagnostic naming a value is printed exactly
when that value was supplied as a non-empty source and fails the existence
check — in particular never when the positional source is omitted — and an
omitted source sends the program straight to the interactive prompt (with no
input available, the run aborts at that prompt). -/
theorem source_omitted_prompts_silently (fs : String → Bool) (args : Args)
    (stdin : List String) :
    (∀ v, Msg.sourceNotExist v ∈ (get_arguments fs args stdin).1
        ↔ (args.source = some v ∧ v ≠ "" ∧ fs v = false))
    ∧ (args.source = none → (get_arguments fs args []).2 = none) := by
  refine ⟨get_arguments_sourceMsg_iff fs args stdin, ?_⟩
  intro h
  unfold get_arguments source_step
  rw [h]
  rfl

/-- C10 (witness): with the source omitted and no interactive input, no
diagnostic names any value and the run aborts at the prompt. -/
theorem source_omitted_prompts_silently_witness :
    (Msg.sourceNotExist "x" ∈ (get_arguments (fun _ => false) (defaultArgs none) []).1
        ↔ ((defaultArgs none).source = some "x" ∧ "x" ≠ ""
            ∧ (fun _ => false : String → Bool) "x" = false))
    ∧ (get_arguments (fun _ => false) (defaultArgs none) []).2 = none :=
  ⟨(source_omitted_prompts_silently (fun _ => false) (defaultArgs none) []).1 "x",
   (source_omitted_prompts_silently (fun _ => false) (defaultArgs none) []).2 rfl⟩
